import Mathlib

set_option maxRecDepth 8000

/-!
Verification of the stt-proxy speech-to-text provider abstraction
(`src/index.ts`): provider configuration inspection, provider selection,
transcription dispatch (file path and in-memory buffer), the two provider
adapters (local whisper.cpp engine and remote Cloudflare API), and text
normalization.

The TypeScript source is embedded shallowly:
* environment variables become an explicit `Env` record (a JS env string is
  "truthy" iff present and nonempty);
* the filesystem becomes a partial map from paths to byte lists;
* the module-level whisper instance cache becomes an explicit `Option String`
  (the model path the live instance was built from) threaded through calls;
* external collaborators (ffmpeg conversion, the whisper engine, the
  Cloudflare HTTP endpoint) become oracle functions carried by a `World`;
* thrown JS `Error`s become `Except` errors tagged with the spec's error
  taxonomy (configuration / not-found / provider) at each throw site;
* every externally visible provider action is recorded in an event trace so
  that "the remote transport is never invoked" and "the existence check
  happens before any provider work" are provable statements.
-/

namespace SttProxy

/-- Byte strings (file contents, audio buffers) as lists of byte values. -/
def Bytes : Type := List Nat

deriving instance DecidableEq for Bytes

/-- The filesystem: a partial map from path strings to file contents.
`fs p = some b` models `fs.existsSync(p) = true` with contents `b`. -/
def FS : Type := String → Option Bytes

/-- `fs.writeFileSync p b` -/
def fsWrite (fs : FS) (p : String) (b : Bytes) : FS :=
  fun q => if q = p then some b else fs q

/-- `fs.unlinkSync p` -/
def fsRemove (fs : FS) (p : String) : FS :=
  fun q => if q = p then none else fs q

-- ===========================================================================
-- Text normalizer (`cleanTranscription`)
-- ===========================================================================

/-- ASCII control characters removed by `text.replace(/[\x00-\x1F\x7F]/g, '')`:
code points 0x00-0x1F and 0x7F. -/
def isControlChar (c : Char) : Bool :=
  c.toNat ≤ 0x1F || c.toNat = 0x7F

/-- The character class trimmed by JavaScript `String.prototype.trim`:
ECMAScript WhiteSpace plus LineTerminator code points. -/
def isJsWhitespace (c : Char) : Bool :=
  c.toNat = 0x09 || c.toNat = 0x0A || c.toNat = 0x0B || c.toNat = 0x0C ||
  c.toNat = 0x0D || c.toNat = 0x20 || c.toNat = 0xA0 || c.toNat = 0x1680 ||
  (0x2000 ≤ c.toNat && c.toNat ≤ 0x200A) ||
  c.toNat = 0x2028 || c.toNat = 0x2029 || c.toNat = 0x202F ||
  c.toNat = 0x205F || c.toNat = 0x3000 || c.toNat = 0xFEFF

/-- `text.replace(/[\x00-\x1F\x7F]/g, '')` -/
def removeControlChars (s : String) : String :=
  ⟨s.data.filter (fun c => !(isControlChar c))⟩

/-- JavaScript `text.trim()`: drop leading and trailing whitespace. -/
def jsTrim (s : String) : String :=
  ⟨List.rdropWhile isJsWhitespace (s.data.dropWhile isJsWhitespace)⟩

/-- `cleanTranscription` from the source: strip ASCII control characters,
then trim leading/trailing whitespace. -/
def cleanTranscription (text : String) : String :=
  jsTrim (removeControlChars text)

-- ===========================================================================
-- Temp path generation (`generateTempPath`)
-- ===========================================================================

/-- `os.tmpdir()` modelled as a fixed directory. -/
def tmpdir : String := "/tmp"

/-- `generateTempPath(prefix, extension)`: the name embeds the current clock
value (`Date.now()`, rendered in decimal) and a random suffix
(`Math.random().toString(36).substring(7)`), joined under the temp
directory. -/
def generateTempPath (pre ext : String) (now : Nat) (rand : String) : String :=
  tmpdir ++ "/" ++ pre ++ "_" ++ Nat.repr now ++ "_" ++ rand ++ "." ++ ext

/-- Decimal value of a digit string (used to show `Nat.repr` is injective,
hence that temp names embed the timestamp faithfully). -/
def reprVal (l : List Char) : Nat :=
  l.foldl (fun a c => 10 * a + (c.toNat - 48)) 0

-- ===========================================================================
-- Environment and provider configuration
-- ===========================================================================

/-- The environment variables the source reads. `none` models an unset
variable; JS truthiness additionally treats `some ""` as unset. -/
structure Env where
  PROVIDER : Option String
  WHISPER_CPP_MODEL_PATH : Option String
  CLOUDFLARE_ACCOUNT_ID : Option String
  CLOUDFLARE_AUTH_KEY : Option String

/-- JS truthiness of an optional env string: present and nonempty. -/
def envTruthy : Option String → Bool
  | some s => s ≠ ""
  | none => false

/-- `isWhisperConfigured`: `!!modelPath && fs.existsSync(modelPath)`. -/
def isWhisperConfigured (env : Env) (fs : FS) : Bool :=
  match env.WHISPER_CPP_MODEL_PATH with
  | some modelPath => modelPath ≠ "" && (fs modelPath).isSome
  | none => false

/-- `isCloudflareConfigured`: both credential variables present (truthy). -/
def isCloudflareConfigured (env : Env) : Bool :=
  envTruthy env.CLOUDFLARE_ACCOUNT_ID && envTruthy env.CLOUDFLARE_AUTH_KEY

-- ===========================================================================
-- Provider selection (`selectProvider`)
-- ===========================================================================

/-- The closed set of provider identities (`type Provider`). -/
inductive Provider where
  | whisperCpp
  | cloudflare
deriving DecidableEq

/-- The spec's error taxonomy; each constructor carries the thrown message. -/
inductive STTError where
  | configuration (msg : String)
  | notFound (msg : String)
  | provider (msg : String)
deriving DecidableEq

/-- ASCII lower-casing of one character, as `toLowerCase` acts on the
ASCII range (the known provider identities are ASCII). -/
def asciiToLower (c : Char) : Char :=
  if c.toNat < 65 then c
  else if c.toNat ≤ 90 then Char.ofNat (c.toNat + 32)
  else c

/-- `s.toLowerCase()` on ASCII strings. -/
def lowerString (s : String) : String :=
  ⟨s.data.map asciiToLower⟩

def unknownProviderMsg (requested : String) : String :=
  "Unknown provider: " ++ requested ++ ". Valid providers are: whisper.cpp, cloudflare"

def whisperOverrideMsg : String :=
  "PROVIDER is set to 'whisper.cpp' but WHISPER_CPP_MODEL_PATH is not configured or model file does not exist."

def cloudflareOverrideMsg : String :=
  "PROVIDER is set to 'cloudflare' but CLOUDFLARE_ACCOUNT_ID and CLOUDFLARE_AUTH_KEY are not configured."

def noProviderMsg : String :=
  "No STT provider configured. Set WHISPER_CPP_MODEL_PATH or CLOUDFLARE_ACCOUNT_ID and CLOUDFLARE_AUTH_KEY environment variables."

/-- `selectProvider()`: explicit override (case-insensitive, validated,
never falling through) first; otherwise auto-selection in the fixed
priority order whisper.cpp, then cloudflare. -/
def selectProvider (env : Env) (fs : FS) : Except STTError Provider :=
  let explicitProv := env.PROVIDER.map lowerString
  match explicitProv with
  | some ep =>
    if ep = "" then autoSelect env fs
    else if ep = "whisper.cpp" then
      if !(isWhisperConfigured env fs) then .error (.configuration whisperOverrideMsg)
      else .ok .whisperCpp
    else if ep = "cloudflare" then
      if !(isCloudflareConfigured env) then .error (.configuration cloudflareOverrideMsg)
      else .ok .cloudflare
    else .error (.configuration (unknownProviderMsg ep))
  | none => autoSelect env fs
where
  /-- Auto-detection priority: whisper.cpp > cloudflare. -/
  autoSelect (env : Env) (fs : FS) : Except STTError Provider :=
    if isWhisperConfigured env fs then .ok .whisperCpp
    else if isCloudflareConfigured env then .ok .cloudflare
    else .error (.configuration noProviderMsg)

-- ===========================================================================
-- Requests, options, responses
-- ===========================================================================

/-- `TranscribeOptions`: each field is present iff the caller supplied it. -/
structure TranscribeOptions where
  language : Option String := none
  translate : Option Bool := none
deriving DecidableEq

/-- `TranscribeOutput` -/
structure TranscribeOutput where
  text : String
deriving DecidableEq

/-- One text segment returned by the whisper engine
(`TranscribeResult<'simple'>`). -/
structure Segment where
  text : String
  fromTime : Int
  toTime : Int
deriving DecidableEq

/-- The option object passed to `whisper.transcribe`: the fixed
`format: 'simple'` plus a `language`/`translate` key for exactly the options
the caller supplied (`...(options.language !== undefined && {...})`). -/
structure WhisperParams where
  language : Option String
  translate : Option Bool
deriving DecidableEq

/-- The JSON body of the Cloudflare POST request. `language = none` models
the key being absent from the body. -/
structure CFBody where
  audio : String
  task : String
  vad_filter : Bool
  language : Option String
deriving DecidableEq

/-- The Cloudflare `fetch` call: URL, method, headers and JSON body. -/
structure CFRequest where
  url : String
  method : String
  authorization : String
  contentType : String
  body : CFBody
deriving DecidableEq

structure CFResult where
  text : String
deriving DecidableEq

structure CFErrorEntry where
  message : String
deriving DecidableEq

/-- The parsed JSON response body (`CloudflareResponse`). -/
structure CloudflareResponse where
  success : Bool
  result : Option CFResult
  errors : Option (List CFErrorEntry)
deriving DecidableEq

/-- The HTTP reply as observed by the adapter: `ok`/`status`/`statusText`,
the raw body text (read in the error branch) and the parsed JSON (read in
the success branch). -/
structure CFReply where
  ok : Bool
  status : Nat
  statusText : String
  bodyText : String
  json : CloudflareResponse
deriving DecidableEq

-- ===========================================================================
-- Base64 (`Buffer.toString('base64')`)
-- ===========================================================================

def base64Alphabet : List Char :=
  "ABCDEFGHIJKLMNOPQRSTUVWXYZabcdefghijklmnopqrstuvwxyz0123456789+/".data

def base64Digit (n : Nat) : Char := base64Alphabet.getD n 'A'

/-- RFC 4648 base64 of a byte list, with `=` padding. -/
def base64Encode : Bytes → String
  | [] => ""
  | [a] =>
    ⟨[base64Digit (a / 4), base64Digit (a % 4 * 16), '=', '=']⟩
  | [a, b] =>
    ⟨[base64Digit (a / 4), base64Digit (a % 4 * 16 + b / 16),
      base64Digit (b % 16 * 4), '=']⟩
  | a :: b :: c :: rest =>
    (⟨[base64Digit (a / 4), base64Digit (a % 4 * 16 + b / 16),
       base64Digit (b % 16 * 4 + c / 64), base64Digit (c % 64)]⟩ : String)
      ++ base64Encode rest

-- ===========================================================================
-- World, state, events
-- ===========================================================================

/-- Externally visible actions of one `transcribe` call, in order. -/
inductive Event where
  | engineFree (modelPath : String)
  | engineLoad (modelPath : String)
  | ffmpegRun (input output : String)
  | engineTranscribe (modelPath : String) (params : WhisperParams)
  | fetchCall (req : CFRequest)
  | tempWrite (p : String)
  | tempUnlink (p : String)
deriving DecidableEq

/-- The ambient world: environment, clock and randomness for temp names,
and the three external collaborators as oracles (ffmpeg conversion to PCM,
the whisper engine, the Cloudflare HTTP endpoint). -/
structure World where
  env : Env
  now : Nat
  rand : String
  convert : Bytes → Option Bytes
  engine : String → Bytes → WhisperParams → List Segment
  fetchOracle : CFRequest → CFReply

/-- Mutable state threaded through a call: the filesystem and the
module-level whisper instance cache (`currentModelPath`, `some p` iff a
live instance built from model path `p` exists). -/
structure St where
  fs : FS
  inst : Option String

/-- Result of one embedded operation: the value or thrown error, the state
after the operation, and the trace of external actions it performed. -/
structure Outcome (α : Type) where
  res : Except STTError α
  st : St
  events : List Event

/-- `getWhisperInstance`: validate the model path, then reuse the cached
instance when its model path matches, else free the old instance (if any)
and construct a new one. Construction failures are `ProviderError`s
(spec 4.4). Returns the model path the instance was built from. -/
def getWhisperInstance (w : World) (st : St) : Outcome String :=
  match w.env.WHISPER_CPP_MODEL_PATH with
  | none =>
    ⟨.error (.provider "WHISPER_CPP_MODEL_PATH environment variable is not set"), st, []⟩
  | some modelPath =>
    if modelPath = "" then
      ⟨.error (.provider "WHISPER_CPP_MODEL_PATH environment variable is not set"), st, []⟩
    else if (st.fs modelPath).isNone then
      ⟨.error (.provider ("Whisper model not found at path: " ++ modelPath)), st, []⟩
    else
      match st.inst with
      | some cur =>
        if cur = modelPath then ⟨.ok modelPath, st, []⟩
        else
          ⟨.ok modelPath, { st with inst := some modelPath },
            [.engineFree cur, .engineLoad modelPath]⟩
      | none =>
        ⟨.ok modelPath, { st with inst := some modelPath }, [.engineLoad modelPath]⟩

/-- `audioToPcm`: run ffmpeg into a fresh temp PCM file, read it back, and
delete the temp file in a `finally` block. A failed conversion (nonzero
ffmpeg exit) throws; the spec classifies it as a `ProviderError`. -/
def audioToPcm (w : World) (st : St) (audioPath : String) : Outcome Bytes :=
  let tempPcmPath := generateTempPath "whisper" "pcm" w.now w.rand
  match st.fs audioPath with
  | none =>
    ⟨.error (.provider "ffmpeg conversion failed"), st, [.ffmpegRun audioPath tempPcmPath]⟩
  | some audioBytes =>
    match w.convert audioBytes with
    | none =>
      ⟨.error (.provider "ffmpeg conversion failed"), st, [.ffmpegRun audioPath tempPcmPath]⟩
    | some pcm =>
      ⟨.ok pcm, { st with fs := fsRemove (fsWrite st.fs tempPcmPath pcm) tempPcmPath },
        [.ffmpegRun audioPath tempPcmPath]⟩

/-- `resultsToText`: join the segment texts with single spaces, in order. -/
def resultsToText (results : List Segment) : String :=
  String.intercalate " " (results.map Segment.text)

/-- `transcribeWithWhisper`: check the audio file exists, obtain the engine
handle, convert to PCM, invoke the engine with exactly the supplied
options, and return the space-joined, normalized segment text. -/
def transcribeWithWhisper (w : World) (st : St) (audioPath : String)
    (options : TranscribeOptions) : Outcome TranscribeOutput :=
  if (st.fs audioPath).isNone then
    ⟨.error (.notFound ("Audio file not found: " ++ audioPath)), st, []⟩
  else
    let o₁ := getWhisperInstance w st
    match o₁.res with
    | .error e => ⟨.error e, o₁.st, o₁.events⟩
    | .ok modelPath =>
      let o₂ := audioToPcm w o₁.st audioPath
      match o₂.res with
      | .error e => ⟨.error e, o₂.st, o₁.events ++ o₂.events⟩
      | .ok pcmData =>
        let transcribeParams : WhisperParams :=
          { language := options.language, translate := options.translate }
        let results := w.engine modelPath pcmData transcribeParams
        ⟨.ok { text := cleanTranscription (resultsToText results) }, o₂.st,
          o₁.events ++ o₂.events ++ [.engineTranscribe modelPath transcribeParams]⟩

/-- First reported API error message, or the generic fallback:
`data.errors?.[0]?.message || 'Unknown Cloudflare API error'`. -/
def firstCloudflareError (data : CloudflareResponse) : String :=
  match data.errors with
  | some (e :: _) => if e.message = "" then "Unknown Cloudflare API error" else e.message
  | _ => "Unknown Cloudflare API error"

/-- Whether `!data.result?.text` holds: the result is absent or its text is
empty. -/
def cfResultMissing (data : CloudflareResponse) : Bool :=
  match data.result with
  | some r => r.text = ""
  | none => true

/-- The single authenticated POST request the remote adapter constructs
(the `fetch` call in the source): fixed endpoint templated with the
account id, bearer auth, JSON body with base64 audio, the task selected by
`options.translate`, the fixed `vad_filter: true`, and `language` included
only when truthy (`...(options.language && { language: ... })`). -/
def cloudflareRequest (accountId authKey : String) (audioBuffer : Bytes)
    (options : TranscribeOptions) : CFRequest :=
  { url := "https://api.cloudflare.com/client/v4/accounts/" ++ accountId
      ++ "/ai/run/@cf/openai/whisper-large-v3-turbo"
    method := "POST"
    authorization := "Bearer " ++ authKey
    contentType := "application/json"
    body :=
      { audio := base64Encode audioBuffer
        task := if options.translate = some true then "translate" else "transcribe"
        vad_filter := true
        language :=
          match options.language with
          | some l => if l = "" then none else some l
          | none => none } }

/-- `transcribeWithCloudflare`: check the audio file exists, check
credentials, build the single authenticated POST, send it, and map the
reply: non-ok status and unsuccessful/empty bodies are errors. -/
def transcribeWithCloudflare (w : World) (st : St) (audioPath : String)
    (options : TranscribeOptions) : Outcome TranscribeOutput :=
  if (st.fs audioPath).isNone then
    ⟨.error (.notFound ("Audio file not found: " ++ audioPath)), st, []⟩
  else if !(envTruthy w.env.CLOUDFLARE_ACCOUNT_ID && envTruthy w.env.CLOUDFLARE_AUTH_KEY) then
    ⟨.error (.configuration "Cloudflare credentials not configured. Set CLOUDFLARE_ACCOUNT_ID and CLOUDFLARE_AUTH_KEY environment variables."), st, []⟩
  else
    let req : CFRequest :=
      cloudflareRequest ((w.env.CLOUDFLARE_ACCOUNT_ID).getD "")
        ((w.env.CLOUDFLARE_AUTH_KEY).getD "") ((st.fs audioPath).getD []) options
    let reply := w.fetchOracle req
    if !reply.ok then
      ⟨.error (.provider ("Cloudflare API error: " ++ Nat.repr reply.status ++ " "
          ++ reply.statusText ++ " - " ++ reply.bodyText)), st, [.fetchCall req]⟩
    else if !reply.json.success || cfResultMissing reply.json then
      ⟨.error (.provider ("Cloudflare transcription failed: "
          ++ firstCloudflareError reply.json)), st, [.fetchCall req]⟩
    else
      ⟨.ok { text := cleanTranscription (((reply.json.result).getD ⟨""⟩).text) }, st,
        [.fetchCall req]⟩

-- ===========================================================================
-- Dispatch (`transcribeFromPath`, `transcribeFromBuffer`, `transcribe`)
-- ===========================================================================

/-- `transcribeFromPath`: route to the chosen provider's adapter. -/
def transcribeFromPath (w : World) (st : St) (audioPath : String)
    (options : TranscribeOptions) (provider : Provider) : Outcome TranscribeOutput :=
  match provider with
  | .cloudflare => transcribeWithCloudflare w st audioPath options
  | .whisperCpp => transcribeWithWhisper w st audioPath options

/-- `transcribeFromBuffer`: write the bytes to a fresh temp file, dispatch
through the file-path route, and delete the temp file in a `finally`
block (on success and on every thrown error alike). -/
def transcribeFromBuffer (w : World) (st : St) (audioBuffer : Bytes)
    (options : TranscribeOptions) (provider : Provider) : Outcome TranscribeOutput :=
  let tempPath := generateTempPath "stt_input" "audio" w.now w.rand
  let st₁ : St := { st with fs := fsWrite st.fs tempPath audioBuffer }
  let o := transcribeFromPath w st₁ tempPath options provider
  if (o.st.fs tempPath).isSome then
    ⟨o.res, { o.st with fs := fsRemove o.st.fs tempPath },
      .tempWrite tempPath :: (o.events ++ [.tempUnlink tempPath])⟩
  else
    ⟨o.res, o.st, .tempWrite tempPath :: o.events⟩

/-- The audio argument of the public `transcribe`: a path string or a
byte buffer. -/
inductive AudioInput where
  | path (p : String)
  | buffer (b : Bytes)

/-- The public entry point `transcribe`: resolve the provider first, then
dispatch by input kind. -/
def transcribe (w : World) (st : St) (audio : AudioInput)
    (options : TranscribeOptions) : Outcome TranscribeOutput :=
  match selectProvider w.env st.fs with
  | .error e => ⟨.error e, st, []⟩
  | .ok provider =>
    match audio with
    | .buffer b => transcribeFromBuffer w st b options provider
    | .path p => transcribeFromPath w st p options provider

/-- Whether an event is an invocation of the remote (Cloudflare) HTTP
transport. -/
def isFetchEvent : Event → Bool
  | .fetchCall _ => true
  | _ => false

/-- Whether an event is local-engine provider work (engine handle
acquisition or release, audio conversion, or engine invocation). -/
def isEngineWorkEvent : Event → Bool
  | .engineFree _ => true
  | .engineLoad _ => true
  | .ffmpegRun _ _ => true
  | .engineTranscribe _ _ => true
  | _ => false

/-- The single fetch request sent during a call, when the trace consists of
exactly one fetch call. -/
def soleFetchRequest : List Event → Option CFRequest
  | [.fetchCall r] => some r
  | _ => none

-- ===========================================================================
-- Concrete test fixtures (used to instantiate the theorems)
-- ===========================================================================

/-- An environment with both providers configured and no override. -/
def envBoth : Env := ⟨none, some "/model.bin", some "acct", some "key"⟩

/-- An environment with only the Cloudflare provider configured. -/
def envCF : Env := ⟨none, none, some "acct", some "key"⟩

/-- A filesystem holding the model file and one audio file. -/
def fsBoth : FS := fun p =>
  if p = "/model.bin" then some [0]
  else if p = "/a.wav" then some [1, 2, 3]
  else none

/-- A successful Cloudflare reply carrying the given result text. -/
def okReply (t : String) : CFReply :=
  ⟨true, 200, "OK", "", ⟨true, some ⟨t⟩, none⟩⟩

/-- A deterministic test world over the given environment: identity PCM
conversion, an engine that returns two fixed segments, and a fetch oracle
that always succeeds with text "ok". -/
def worldWith (env : Env) : World :=
  ⟨env, 7, "r4nd", fun b => some b,
    fun _ _ _ => [⟨"Hello,", 0, 0⟩, ⟨"world!", 0, 0⟩],
    fun _ => okReply "ok"⟩

-- ===========================================================================
-- Helper lemmas
-- ===========================================================================

lemma head?_dropWhile_ws {p : Char → Bool} {l : List Char} {c : Char}
    (h : (l.dropWhile p).head? = some c) : p c = false := by
  induction l with
  | nil => simp [List.dropWhile] at h
  | cons a t ih =>
    by_cases hpa : p a
    · rw [List.dropWhile_cons_of_pos hpa] at h
      exact ih h
    · rw [List.dropWhile_cons_of_neg hpa] at h
      simp only [List.head?_cons, Option.some.injEq] at h
      subst h
      exact Bool.eq_false_iff.mpr hpa

lemma head?_eq_of_isPrefix {v u : List Char} {c : Char} (hvu : v <+: u)
    (h : v.head? = some c) : u.head? = some c := by
  obtain ⟨t, rfl⟩ := hvu
  cases v with
  | nil => simp at h
  | cons a v' => simpa using h

lemma getLast?_rdropWhile_ws {p : Char → Bool} {l : List Char} {c : Char}
    (h : (List.rdropWhile p l).getLast? = some c) : p c = false := by
  have hne : List.rdropWhile p l ≠ [] := by
    intro hnil
    rw [hnil] at h
    simp at h
  have hlast := List.rdropWhile_last_not p l hne
  have := List.getLast?_eq_getLast (List.rdropWhile p l) hne
  rw [this] at h
  have hc : c = (List.rdropWhile p l).getLast hne := by
    exact (Option.some.injEq _ _).mp h.symm
  subst hc
  exact Bool.eq_false_iff.mpr hlast

lemma jsTrim_data (s : String) :
    (jsTrim s).data = List.rdropWhile isJsWhitespace (s.data.dropWhile isJsWhitespace) := rfl

lemma jsTrim_sublist (s : String) : (jsTrim s).data.Sublist s.data := by
  rw [jsTrim_data]
  exact (( List.rdropWhile_prefix isJsWhitespace _).sublist).trans
    (List.dropWhile_suffix isJsWhitespace).sublist

lemma jsTrim_head?_not_ws {s : String} {c : Char}
    (h : (jsTrim s).data.head? = some c) : isJsWhitespace c = false := by
  rw [jsTrim_data] at h
  exact head?_dropWhile_ws
    (head?_eq_of_isPrefix ( List.rdropWhile_prefix isJsWhitespace _) h)

lemma jsTrim_getLast?_not_ws {s : String} {c : Char}
    (h : (jsTrim s).data.getLast? = some c) : isJsWhitespace c = false := by
  rw [jsTrim_data] at h
  exact getLast?_rdropWhile_ws h

lemma jsTrim_eq_self {s : String}
    (h1 : ∀ c, s.data.head? = some c → isJsWhitespace c = false)
    (h2 : ∀ c, s.data.getLast? = some c → isJsWhitespace c = false) :
    jsTrim s = s := by
  apply String.ext
  rw [jsTrim_data]
  have hdrop : s.data.dropWhile isJsWhitespace = s.data := by
    rw [List.dropWhile_eq_self_iff]
    intro hl hws
    have hh : s.data.head? = some (s.data.get ⟨0, hl⟩) := by
      rw [List.head?_eq_getElem?, List.get_eq_getElem]
      exact List.getElem?_eq_getElem hl
    exact absurd (h1 _ hh) (by simp [List.get_eq_getElem] at hws; simp [hws])
  rw [hdrop, List.rdropWhile_eq_self_iff]
  intro hl hws
  have hne : s.data ≠ [] := hl
  have : s.data.getLast? = some (s.data.getLast hne) := List.getLast?_eq_getLast _ hne
  exact absurd (h2 _ this) (by simp [hws])

lemma jsTrim_idem (s : String) : jsTrim (jsTrim s) = jsTrim s :=
  jsTrim_eq_self (fun _ h => jsTrim_head?_not_ws h) (fun _ h => jsTrim_getLast?_not_ws h)

lemma removeControlChars_eq_self {s : String}
    (h : ∀ c ∈ s.data, isControlChar c = false) : removeControlChars s = s := by
  apply String.ext
  show s.data.filter (fun c => !(isControlChar c)) = s.data
  rw [List.filter_eq_self]
  intro a ha
  simp [h a ha]

lemma mem_cleanTranscription {x : String} {c : Char}
    (h : c ∈ (cleanTranscription x).data) :
    c ∈ x.data ∧ isControlChar c = false := by
  have h1 : c ∈ (removeControlChars x).data :=
    (jsTrim_sublist (removeControlChars x)).subset h
  have h2 : c ∈ x.data.filter (fun c => !(isControlChar c)) := h1
  rw [List.mem_filter] at h2
  exact ⟨h2.1, by simpa using h2.2⟩

lemma cleanTranscription_idem (x : String) :
    cleanTranscription (cleanTranscription x) = cleanTranscription x := by
  show jsTrim (removeControlChars (cleanTranscription x)) = cleanTranscription x
  rw [removeControlChars_eq_self (fun c hc => (mem_cleanTranscription hc).2)]
  exact jsTrim_idem (removeControlChars x)

lemma envTruthy_false {o : Option String} (h : envTruthy o = false) :
    o = none ∨ o = some "" := by
  match o with
  | none => exact Or.inl rfl
  | some s =>
    simp only [envTruthy, ne_eq, decide_not, Bool.not_eq_false', decide_eq_true_eq] at h
    exact Or.inr (by rw [h])

lemma selectProvider_no_override {env : Env} {fs : FS}
    (h : envTruthy env.PROVIDER = false) :
    selectProvider env fs = selectProvider.autoSelect env fs := by
  rcases envTruthy_false h with h' | h' <;> simp [selectProvider, h', lowerString]

lemma getWhisperInstance_no_fetch (w : World) (st : St) :
    ∀ e ∈ (getWhisperInstance w st).events, isFetchEvent e = false := by
  unfold getWhisperInstance
  repeat' split
  all_goals simp [isFetchEvent]

lemma audioToPcm_no_fetch (w : World) (st : St) (audioPath : String) :
    ∀ e ∈ (audioToPcm w st audioPath).events, isFetchEvent e = false := by
  unfold audioToPcm
  repeat' split
  all_goals simp [isFetchEvent]

lemma transcribeWithWhisper_no_fetch (w : World) (st : St) (audioPath : String)
    (options : TranscribeOptions) :
    ∀ e ∈ (transcribeWithWhisper w st audioPath options).events, isFetchEvent e = false := by
  unfold transcribeWithWhisper
  intro e he
  split at he
  · simp at he
  · dsimp only at he
    split at he
    · exact getWhisperInstance_no_fetch w st e he
    · split at he
      · rcases List.mem_append.mp he with h | h
        · exact getWhisperInstance_no_fetch w st e h
        · exact audioToPcm_no_fetch w _ audioPath e h
      · rcases List.mem_append.mp he with h | h
        · rcases List.mem_append.mp h with h' | h'
          · exact getWhisperInstance_no_fetch w st e h'
          · exact audioToPcm_no_fetch w _ audioPath e h'
        · simp at h
          rw [h]
          rfl

lemma transcribeFromBuffer_no_fetch (w : World) (st : St) (b : Bytes)
    (options : TranscribeOptions) (provider : Provider)
    (hp : ∀ st' p, ∀ e ∈ (transcribeFromPath w st' p options provider).events,
      isFetchEvent e = false) :
    ∀ e ∈ (transcribeFromBuffer w st b options provider).events, isFetchEvent e = false := by
  unfold transcribeFromBuffer
  intro e he
  dsimp only at he
  split at he <;>
    simp only [List.mem_cons, List.mem_append, List.mem_singleton] at he
  · rcases he with rfl | he | rfl | h
    · rfl
    · exact hp _ _ e he
    · rfl
    · cases h
  · rcases he with rfl | he
    · rfl
    · exact hp _ _ e he

lemma toDigitsCore_append (b : Nat) :
    ∀ (f n : Nat) (acc : List Char),
      Nat.toDigitsCore b f n acc = Nat.toDigitsCore b f n [] ++ acc := by
  intro f
  induction f with
  | zero => intro n acc; rfl
  | succ f ih =>
    intro n acc
    simp only [Nat.toDigitsCore]
    by_cases h0 : n / b = 0
    · simp [h0]
    · rw [if_neg h0, if_neg h0, ih (n / b) (Nat.digitChar (n % b) :: acc),
        ih (n / b) [Nat.digitChar (n % b)], List.append_assoc]
      rfl

lemma digitChar_isDigit {m : Nat} (h : m < 10) : (Nat.digitChar m).isDigit = true := by
  interval_cases m <;> decide

lemma digitChar_toNat {m : Nat} (h : m < 10) : (Nat.digitChar m).toNat = 48 + m := by
  interval_cases m <;> decide

lemma toDigitsCore_ten_digits :
    ∀ (f n : Nat), ∀ c ∈ Nat.toDigitsCore 10 f n [], c.isDigit = true := by
  intro f
  induction f with
  | zero => intro n c hc; cases hc
  | succ f ih =>
    intro n c hc
    simp only [Nat.toDigitsCore] at hc
    by_cases h0 : n / 10 = 0
    · rw [if_pos h0] at hc
      rw [List.mem_singleton] at hc
      subst hc
      exact digitChar_isDigit (Nat.mod_lt n (by decide))
    · rw [if_neg h0, toDigitsCore_append] at hc
      rcases List.mem_append.mp hc with h | h
      · exact ih (n / 10) c h
      · rw [List.mem_singleton] at h
        subst h
        exact digitChar_isDigit (Nat.mod_lt n (by decide))

lemma reprVal_concat (l : List Char) (c : Char) :
    reprVal (l ++ [c]) = 10 * reprVal l + (c.toNat - 48) := by
  unfold reprVal
  rw [List.foldl_append]
  rfl

lemma reprVal_toDigitsCore :
    ∀ (f n : Nat), n ≤ f → reprVal (Nat.toDigitsCore 10 f n []) = n := by
  intro f
  induction f with
  | zero =>
    intro n hn
    interval_cases n
    rfl
  | succ f ih =>
    intro n hn
    simp only [Nat.toDigitsCore]
    by_cases h0 : n / 10 = 0
    · rw [if_pos h0]
      have hlt : n < 10 := (Nat.div_eq_zero_iff (by decide)).mp h0
      show reprVal [Nat.digitChar (n % 10)] = n
      unfold reprVal
      simp only [List.foldl]
      rw [digitChar_toNat (Nat.mod_lt n (by decide))]
      omega
    · rw [if_neg h0, toDigitsCore_append, reprVal_concat]
      have hnpos : 0 < n := by
        rcases Nat.eq_zero_or_pos n with h | h
        · subst h; simp at h0
        · exact h
      have hdivle : n / 10 ≤ f :=
        Nat.le_of_lt_succ (Nat.lt_of_lt_of_le (Nat.div_lt_self hnpos (by decide)) hn)
      rw [ih (n / 10) hdivle, digitChar_toNat (Nat.mod_lt n (by decide))]
      omega

lemma repr_data (n : Nat) : (Nat.repr n).data = Nat.toDigits 10 n := rfl

lemma reprVal_repr (n : Nat) : reprVal (Nat.repr n).data = n := by
  rw [repr_data]
  exact reprVal_toDigitsCore (n + 1) n (Nat.le_succ n)

lemma nat_repr_injective {m n : Nat} (h : Nat.repr m = Nat.repr n) : m = n := by
  have := congrArg (fun s => reprVal s.data) h
  simpa [reprVal_repr] using this

lemma repr_no_underscore (n : Nat) : ∀ c ∈ (Nat.repr n).data, c ≠ '_' := by
  intro c hc heq
  rw [repr_data] at hc
  have hd := toDigitsCore_ten_digits (n + 1) n c hc
  rw [heq] at hd
  exact absurd hd (by decide)

lemma append_sep_inj {sep : Char} :
    ∀ (a₁ a₂ b₁ b₂ : List Char), (∀ c ∈ a₁, c ≠ sep) → (∀ c ∈ a₂, c ≠ sep) →
      a₁ ++ sep :: b₁ = a₂ ++ sep :: b₂ → a₁ = a₂ ∧ b₁ = b₂ := by
  intro a₁
  induction a₁ with
  | nil =>
    intro a₂ b₁ b₂ _ h₂ h
    cases a₂ with
    | nil => simpa using h
    | cons x a₂' =>
      simp only [List.nil_append, List.cons_append, List.cons.injEq] at h
      exact absurd h.1.symm (h₂ x (List.mem_cons_self x a₂'))
  | cons x a₁' ih =>
    intro a₂ b₁ b₂ h₁ h₂ h
    cases a₂ with
    | nil =>
      simp only [List.cons_append, List.nil_append, List.cons.injEq] at h
      exact absurd h.1 (h₁ x (List.mem_cons_self x a₁'))
    | cons y a₂' =>
      simp only [List.cons_append, List.cons.injEq] at h
      obtain ⟨rfl, h'⟩ := h
      obtain ⟨ha, hb⟩ := ih a₂' b₁ b₂
        (fun c hc => h₁ c (List.mem_cons_of_mem x hc))
        (fun c hc => h₂ c (List.mem_cons_of_mem x hc)) h'
      exact ⟨by rw [ha], hb⟩

lemma generateTempPath_inj (pre ext : String) {n₁ n₂ : Nat} {r₁ r₂ : String}
    (h : generateTempPath pre ext n₁ r₁ = generateTempPath pre ext n₂ r₂) :
    n₁ = n₂ ∧ r₁ = r₂ := by
  have hd := congrArg String.data h
  simp only [generateTempPath, String.data_append, List.append_assoc] at hd
  replace hd := List.append_cancel_left hd
  replace hd := List.append_cancel_left hd
  replace hd := List.append_cancel_left hd
  replace hd := List.append_cancel_left hd
  have e1 : ∀ X : List Char, "_".data ++ X = '_' :: X := fun X => rfl
  rw [e1, e1] at hd
  obtain ⟨ha, hb⟩ := append_sep_inj (Nat.repr n₁).data (Nat.repr n₂).data _ _
    (repr_no_underscore n₁) (repr_no_underscore n₂) hd
  refine ⟨nat_repr_injective (String.ext ha), ?_⟩
  exact String.ext (List.append_cancel_right hb)

lemma getWhisperInstance_ok {w : World} {st : St} {mp : String}
    (hmp : w.env.WHISPER_CPP_MODEL_PATH = some mp) (hne : mp ≠ "")
    (hex : (st.fs mp).isSome = true) :
    (getWhisperInstance w st).res = .ok mp ∧ (getWhisperInstance w st).st.fs = st.fs := by
  unfold getWhisperInstance
  rw [hmp]
  obtain ⟨v, hv⟩ := Option.isSome_iff_exists.mp hex
  dsimp only
  rw [if_neg hne, hv]
  rw [if_neg (by simp)]
  split
  · split
    · exact ⟨rfl, rfl⟩
    · exact ⟨rfl, rfl⟩
  · exact ⟨rfl, rfl⟩

lemma audioToPcm_res_of_fs {w : World} {st₁ st₂ : St} (h : st₁.fs = st₂.fs)
    (p : String) : (audioToPcm w st₁ p).res = (audioToPcm w st₂ p).res := by
  unfold audioToPcm
  rw [h]
  rcases st₂.fs p with _ | ab
  · rfl
  · dsimp only
    rcases w.convert ab with _ | pcm <;> rfl

lemma audioToPcm_ok {w : World} {st : St} {p : String} {ab pcm : Bytes}
    (hfile : st.fs p = some ab) (hconv : w.convert ab = some pcm) :
    (audioToPcm w st p).res = .ok pcm := by
  unfold audioToPcm
  rw [hfile]
  dsimp only
  rw [hconv]

-- ===========================================================================
-- Claim theorems
-- ===========================================================================

/-- C9: `cleanTranscription` (the text normalizer) is a total function that
removes exactly the ASCII control characters 0x00-0x1F and 0x7F and trims
leading and trailing whitespace: every output character is an input
character and not a control character, the output has no leading or
trailing whitespace, a string with no control characters and no boundary
whitespace is returned unchanged, and normalization is idempotent:
`normalize (normalize x) = normalize x` for every string `x`. -/
theorem claim_C9_normalize_exact_total_idempotent (x : String) :
    (∀ c ∈ (cleanTranscription x).data, c ∈ x.data ∧ isControlChar c = false) ∧
    (∀ c, (cleanTranscription x).data.head? = some c → isJsWhitespace c = false) ∧
    (∀ c, (cleanTranscription x).data.getLast? = some c → isJsWhitespace c = false) ∧
    ((∀ c ∈ x.data, isControlChar c = false) →
      (∀ c, x.data.head? = some c → isJsWhitespace c = false) →
      (∀ c, x.data.getLast? = some c → isJsWhitespace c = false) →
      cleanTranscription x = x) ∧
    cleanTranscription (cleanTranscription x) = cleanTranscription x := by
  refine ⟨fun c hc => mem_cleanTranscription hc,
    fun c hc => jsTrim_head?_not_ws hc,
    fun c hc => jsTrim_getLast?_not_ws hc,
    fun hctl hhd hlast => ?_,
    cleanTranscription_idem x⟩
  show jsTrim (removeControlChars x) = x
  rw [removeControlChars_eq_self hctl]
  exact jsTrim_eq_self hhd hlast

/-- Witness for C9 at the concrete string `" \x01Hi\x7f "`: normalization
yields `"Hi"`, the fixed-point hypotheses hold of `"Hi"`, and normalizing
`"Hi"` again returns it unchanged. -/
theorem claim_C9_witness :
    cleanTranscription " \x01Hi\x7f " = "Hi" ∧ cleanTranscription "Hi" = "Hi" := by
  constructor
  · decide
  · exact (claim_C9_normalize_exact_total_idempotent "Hi").2.2.2.1
      (by decide) (by decide) (by decide)

/-- C1: when no explicit provider override is set (the `PROVIDER` variable
is unset or empty), `selectProvider` follows the fixed priority order —
local whisper.cpp engine first, remote Cloudflare API second — returning
the first provider whose `isConfigured` check is true; in particular,
whenever both providers are configured, the local engine is selected and
the whole `transcribe` call performs no invocation of the remote
transport, for path and buffer inputs alike. -/
theorem claim_C1_auto_selection_priority (w : World) (st : St)
    (hov : envTruthy w.env.PROVIDER = false) :
    (isWhisperConfigured w.env st.fs = true →
      selectProvider w.env st.fs = .ok .whisperCpp) ∧
    (isWhisperConfigured w.env st.fs = false → isCloudflareConfigured w.env = true →
      selectProvider w.env st.fs = .ok .cloudflare) ∧
    (isWhisperConfigured w.env st.fs = true → isCloudflareConfigured w.env = true →
      ∀ (audio : AudioInput) (options : TranscribeOptions),
        ∀ e ∈ (transcribe w st audio options).events, isFetchEvent e = false) := by
  rw [selectProvider_no_override hov]
  refine ⟨?_, ?_, ?_⟩
  · intro hw
    simp [selectProvider.autoSelect, hw]
  · intro hw hc
    simp [selectProvider.autoSelect, hw, hc]
  · intro hw _ audio options
    have hsel : selectProvider w.env st.fs = .ok .whisperCpp := by
      rw [selectProvider_no_override hov]
      simp [selectProvider.autoSelect, hw]
    unfold transcribe
    rw [hsel]
    cases audio with
    | path p => exact transcribeWithWhisper_no_fetch w st p options
    | buffer b =>
      exact transcribeFromBuffer_no_fetch w st b options .whisperCpp
        (fun st' p => transcribeWithWhisper_no_fetch w st' p options)

/-- Witness for C1 at a concrete environment with both providers
configured and no override: the local engine is selected and a concrete
file-path transcription emits no fetch event. -/
theorem claim_C1_witness :
    envTruthy envBoth.PROVIDER = false ∧
    isWhisperConfigured envBoth fsBoth = true ∧
    isCloudflareConfigured envBoth = true ∧
    selectProvider envBoth fsBoth = .ok .whisperCpp ∧
    (∀ e ∈ (transcribe (worldWith envBoth) ⟨fsBoth, none⟩ (.path "/a.wav") {}).events,
      isFetchEvent e = false) := by
  refine ⟨rfl, rfl, rfl, ?_, ?_⟩
  · exact (claim_C1_auto_selection_priority (worldWith envBoth) ⟨fsBoth, none⟩ rfl).1 rfl
  · exact (claim_C1_auto_selection_priority (worldWith envBoth) ⟨fsBoth, none⟩ rfl).2.2
      rfl rfl (.path "/a.wav") {}

/-- C2: with an explicit provider override (matched case-insensitively by
lower-casing against the known identities): a known but unconfigured
provider makes selection fail with an error naming that provider and its
missing settings, never falling through to another provider; an unknown
name fails with an unknown-provider error listing the valid names; a
known, configured name is returned directly. -/
theorem claim_C2_explicit_override (env : Env) (fs : FS) (s : String)
    (hov : env.PROVIDER = some s) :
    (lowerString s = "whisper.cpp" →
      (isWhisperConfigured env fs = false →
        selectProvider env fs = .error (.configuration whisperOverrideMsg)) ∧
      (isWhisperConfigured env fs = true →
        selectProvider env fs = .ok .whisperCpp)) ∧
    (lowerString s = "cloudflare" →
      (isCloudflareConfigured env = false →
        selectProvider env fs = .error (.configuration cloudflareOverrideMsg)) ∧
      (isCloudflareConfigured env = true →
        selectProvider env fs = .ok .cloudflare)) ∧
    (lowerString s ≠ "" → lowerString s ≠ "whisper.cpp" → lowerString s ≠ "cloudflare" →
      selectProvider env fs = .error (.configuration (unknownProviderMsg (lowerString s)))) ∧
    "whisper.cpp".data <:+: whisperOverrideMsg.data ∧
    "WHISPER_CPP_MODEL_PATH".data <:+: whisperOverrideMsg.data ∧
    "cloudflare".data <:+: cloudflareOverrideMsg.data ∧
    "CLOUDFLARE_ACCOUNT_ID".data <:+: cloudflareOverrideMsg.data ∧
    "CLOUDFLARE_AUTH_KEY".data <:+: cloudflareOverrideMsg.data ∧
    "Valid providers are: whisper.cpp, cloudflare".data <:+:
      (unknownProviderMsg (lowerString s)).data := by
  refine ⟨?_, ?_, ?_, by decide, by decide, by decide, by decide, by decide, ?_⟩
  · intro hl
    constructor
    · intro hw
      simp [selectProvider, hov, hl, hw]
    · intro hw
      simp [selectProvider, hov, hl, hw]
  · intro hl
    constructor
    · intro hc
      simp [selectProvider, hov, hl, hc]
    · intro hc
      simp [selectProvider, hov, hl, hc]
  · intro h0 hw hc
    simp [selectProvider, hov, h0, hw, hc]
  · refine ⟨"Unknown provider: ".data ++ (lowerString s).data ++ ". ".data, [], ?_⟩
    have hB : ". ".data ++ "Valid providers are: whisper.cpp, cloudflare".data =
        ". Valid providers are: whisper.cpp, cloudflare".data := by decide
    simp only [unknownProviderMsg, String.data_append, List.append_assoc, List.append_nil]
    rw [hB]

/-- Witness for C2: the concrete unrecognized override "FOOBAR" (spec
scenario 10) is rejected with the unknown-provider error listing the valid
provider names. -/
theorem claim_C2_witness :
    selectProvider ⟨some "FOOBAR", none, none, none⟩ (fun _ => none) =
      .error (.configuration (unknownProviderMsg "foobar")) := by
  have h := claim_C2_explicit_override ⟨some "FOOBAR", none, none, none⟩
    (fun _ => none) "FOOBAR" rfl
  have h' := h.2.2.1 (by decide) (by decide) (by decide)
  rwa [show lowerString "FOOBAR" = "foobar" from by decide] at h'

/-- C3: when no provider is configured and no override is set, `transcribe`
fails with a `ConfigurationError` whose message enumerates every recognized
configuration setting across all providers (WHISPER_CPP_MODEL_PATH,
CLOUDFLARE_ACCOUNT_ID, CLOUDFLARE_AUTH_KEY), identically for file-path and
buffer inputs. -/
theorem claim_C3_no_provider_configured (w : World) (st : St)
    (hov : envTruthy w.env.PROVIDER = false)
    (hw : isWhisperConfigured w.env st.fs = false)
    (hc : isCloudflareConfigured w.env = false) :
    (∀ (audio : AudioInput) (options : TranscribeOptions),
      (transcribe w st audio options).res = .error (.configuration noProviderMsg)) ∧
    "WHISPER_CPP_MODEL_PATH".data <:+: noProviderMsg.data ∧
    "CLOUDFLARE_ACCOUNT_ID".data <:+: noProviderMsg.data ∧
    "CLOUDFLARE_AUTH_KEY".data <:+: noProviderMsg.data := by
  refine ⟨?_, by decide, by decide, by decide⟩
  intro audio options
  have hsel : selectProvider w.env st.fs = .error (.configuration noProviderMsg) := by
    rw [selectProvider_no_override hov]
    simp [selectProvider.autoSelect, hw, hc]
  unfold transcribe
  rw [hsel]

/-- Witness for C3 at the empty environment: both a path call and a buffer
call fail with the configuration error. -/
theorem claim_C3_witness :
    (transcribe (worldWith ⟨none, none, none, none⟩) ⟨fun _ => none, none⟩
        (.path "/x.wav") {}).res = .error (.configuration noProviderMsg) ∧
    (transcribe (worldWith ⟨none, none, none, none⟩) ⟨fun _ => none, none⟩
        (.buffer [1, 2]) {}).res = .error (.configuration noProviderMsg) :=
  ⟨(claim_C3_no_provider_configured (worldWith ⟨none, none, none, none⟩)
      ⟨fun _ => none, none⟩ rfl rfl rfl).1 (.path "/x.wav") {},
   (claim_C3_no_provider_configured (worldWith ⟨none, none, none, none⟩)
      ⟨fun _ => none, none⟩ rfl rfl rfl).1 (.buffer [1, 2]) {}⟩

/-- C4: `isWhisperConfigured` is true iff the model-path setting is present
(truthy) and the referenced file exists; `isCloudflareConfigured` is true
iff both credential variables are present (a pure function of the
environment, no network access); consequently, when the model path is set
but the file is absent and nothing else is configured, `transcribe` fails
with the no-provider `ConfigurationError` and not with a `NotFoundError`. -/
theorem claim_C4_isConfigured_semantics (env : Env) (fs : FS) :
    (isWhisperConfigured env fs = true ↔
      ∃ p, env.WHISPER_CPP_MODEL_PATH = some p ∧ p ≠ "" ∧ (fs p).isSome = true) ∧
    (isCloudflareConfigured env = true ↔
      envTruthy env.CLOUDFLARE_ACCOUNT_ID = true ∧
        envTruthy env.CLOUDFLARE_AUTH_KEY = true) ∧
    (∀ (w : World) (st : St) (p : String), w.env = env → st.fs = fs →
      envTruthy env.PROVIDER = false →
      env.WHISPER_CPP_MODEL_PATH = some p → p ≠ "" → fs p = none →
      isCloudflareConfigured env = false →
      ∀ (audio : AudioInput) (options : TranscribeOptions),
        (transcribe w st audio options).res = .error (.configuration noProviderMsg)) := by
  refine ⟨?_, ?_, ?_⟩
  · unfold isWhisperConfigured
    match h : env.WHISPER_CPP_MODEL_PATH with
    | none => simp
    | some p =>
      simp only [Bool.and_eq_true, decide_eq_true_eq, ne_eq]
      constructor
      · rintro ⟨h1, h2⟩
        exact ⟨p, rfl, by simpa using h1, h2⟩
      · rintro ⟨q, hq, hq1, hq2⟩
        cases Option.some.injEq p q ▸ hq with
        | refl => exact ⟨by simpa using hq1, hq2⟩
  · unfold isCloudflareConfigured
    simp
  · intro w st p hwenv hfs hov hmp hne hmiss hc audio options
    have hw : isWhisperConfigured env fs = false := by
      unfold isWhisperConfigured
      rw [hmp]
      simp [hmiss]
    exact (claim_C3_no_provider_configured w st (hwenv ▸ hov)
      (by rw [hwenv, hfs]; exact hw) (hwenv ▸ hc)).1 audio options

/-- Witness for C4: a concrete environment whose model path points to a
missing file and with no other provider configured is rejected with the
configuration error (not a not-found error), and the two `isConfigured`
characterizations hold there. -/
theorem claim_C4_witness :
    isWhisperConfigured ⟨none, some "/gone.bin", none, none⟩ (fun _ => none) = false ∧
    (transcribe (worldWith ⟨none, some "/gone.bin", none, none⟩) ⟨fun _ => none, none⟩
        (.path "/a.wav") {}).res = .error (.configuration noProviderMsg) := by
  refine ⟨rfl, ?_⟩
  exact (claim_C4_isConfigured_semantics ⟨none, some "/gone.bin", none, none⟩
      (fun _ => none)).2.2 (worldWith ⟨none, some "/gone.bin", none, none⟩)
      ⟨fun _ => none, none⟩ "/gone.bin" rfl rfl rfl rfl (by decide) rfl rfl
      (.path "/a.wav") {}

/-- C5: for a file-path request whose path references a nonexistent file,
with some provider resolvable, `transcribe` fails with a `NotFoundError`,
the call is exactly the dispatch to the resolved provider's adapter (the
same resolved identity governs the existence check and the adapter), and
the existence check happens before any provider work: the event trace is
empty — no engine handle acquisition, no conversion, no network call. -/
theorem claim_C5_missing_audio_file (w : World) (st : St) (p : Provider)
    (audioPath : String)
    (hsel : selectProvider w.env st.fs = .ok p)
    (hmiss : st.fs audioPath = none) :
    ∀ options : TranscribeOptions,
      transcribe w st (.path audioPath) options =
        transcribeFromPath w st audioPath options p ∧
      (transcribe w st (.path audioPath) options).res =
        .error (.notFound ("Audio file not found: " ++ audioPath)) ∧
      (transcribe w st (.path audioPath) options).events = [] := by
  intro options
  have hdisp : transcribe w st (.path audioPath) options =
      transcribeFromPath w st audioPath options p := by
    unfold transcribe
    rw [hsel]
  refine ⟨hdisp, ?_, ?_⟩ <;>
    · rw [hdisp]
      cases p with
      | whisperCpp => simp [transcribeFromPath, transcribeWithWhisper, hmiss]
      | cloudflare => simp [transcribeFromPath, transcribeWithCloudflare, hmiss]

/-- Witness for C5: with only Cloudflare configured and a missing audio
file, the concrete call fails with the not-found error and performs no
provider work. -/
theorem claim_C5_witness :
    (transcribe (worldWith envCF) ⟨fun _ => none, none⟩ (.path "/a.wav") {}).res =
      .error (.notFound ("Audio file not found: " ++ "/a.wav")) ∧
    (transcribe (worldWith envCF) ⟨fun _ => none, none⟩ (.path "/a.wav") {}).events = [] :=
  ⟨(claim_C5_missing_audio_file (worldWith envCF) ⟨fun _ => none, none⟩
      .cloudflare "/a.wav" rfl rfl {}).2.1,
   (claim_C5_missing_audio_file (worldWith envCF) ⟨fun _ => none, none⟩
      .cloudflare "/a.wav" rfl rfl {}).2.2⟩

/-- C6: a buffer call writes the bytes to a freshly generated temp file
(first recorded action), dispatches through the file-path route with the
selected provider on a filesystem holding exactly those bytes at the temp
path, and on every exit path — success or any thrown error — the temp file
is gone from the final filesystem; moreover the temp-naming scheme is
collision-free across distinct clock values or random suffixes. -/
theorem claim_C6_buffer_temp_file_lifecycle (w : World) (st : St) (b : Bytes)
    (options : TranscribeOptions) (provider : Provider)
    (hsel : selectProvider w.env st.fs = .ok provider) :
    transcribe w st (.buffer b) options = transcribeFromBuffer w st b options provider ∧
    (transcribeFromBuffer w st b options provider).events.head? =
      some (.tempWrite (generateTempPath "stt_input" "audio" w.now w.rand)) ∧
    (transcribeFromBuffer w st b options provider).res =
      (transcribeFromPath w
        ⟨fsWrite st.fs (generateTempPath "stt_input" "audio" w.now w.rand) b, st.inst⟩
        (generateTempPath "stt_input" "audio" w.now w.rand) options provider).res ∧
    (transcribeFromBuffer w st b options provider).st.fs
      (generateTempPath "stt_input" "audio" w.now w.rand) = none ∧
    (∀ (n₁ n₂ : Nat) (r₁ r₂ : String),
      generateTempPath "stt_input" "audio" n₁ r₁ =
        generateTempPath "stt_input" "audio" n₂ r₂ →
      n₁ = n₂ ∧ r₁ = r₂) := by
  refine ⟨?_, ?_, ?_, ?_, fun n₁ n₂ r₁ r₂ h => generateTempPath_inj _ _ h⟩
  · unfold transcribe
    rw [hsel]
  · unfold transcribeFromBuffer
    dsimp only
    split <;> rfl
  · unfold transcribeFromBuffer
    dsimp only
    split <;> rfl
  · unfold transcribeFromBuffer
    dsimp only
    split
    · simp [fsRemove]
    · next h => simpa using h

/-- Witness for C6: a concrete buffer call against the whisper provider
leaves no temp file behind and starts by writing the temp file. -/
theorem claim_C6_witness :
    (transcribe (worldWith envBoth) ⟨fsBoth, none⟩ (.buffer [5, 6]) {}).st.fs
        (generateTempPath "stt_input" "audio" 7 "r4nd") = none ∧
    (transcribe (worldWith envBoth) ⟨fsBoth, none⟩ (.buffer [5, 6]) {}).events.head? =
      some (.tempWrite (generateTempPath "stt_input" "audio" 7 "r4nd")) := by
  have h := claim_C6_buffer_temp_file_lifecycle (worldWith envBoth) ⟨fsBoth, none⟩
    [5, 6] {} .whisperCpp rfl
  constructor
  · rw [h.1]
    exact h.2.2.2.1
  · rw [h.1]
    exact h.2.1

/-- C7 counterexample: the claim's "language field present iff
options.language was supplied" fails when the supplied language is the
empty string. At a concrete configured call with `language := some ""`,
the language option is supplied (`isSome`), yet the single POST request
sent carries no language field (the source includes it only when truthy:
`...(options.language && { language: ... })`). -/
theorem claim_C7_counterexample :
    (TranscribeOptions.language { language := some "", translate := none }).isSome = true ∧
    ((soleFetchRequest (transcribeWithCloudflare (worldWith envCF)
        ⟨fsBoth, none⟩ "/a.wav" { language := some "", translate := none }).events).map
      (fun r => r.body.language)) = some none :=
  ⟨rfl, rfl⟩

/-- C7 (amended): for every request handled by the remote adapter, exactly
one POST is sent; its body contains the base64-encoded audio, a task field
equal to "translate" if `options.translate` is true and "transcribe"
otherwise, a voice-activity-detection flag fixed to true, and a language
field present if and only if `options.language` was supplied *and
non-empty* (truthy); the request carries bearer auth and the fixed
endpoint templated with the configured account identifier. -/
theorem claim_C7_remote_request_shape (w : World) (st : St) (audioPath : String)
    (options : TranscribeOptions) (b : Bytes) (a k : String)
    (hfile : st.fs audioPath = some b)
    (ha : w.env.CLOUDFLARE_ACCOUNT_ID = some a) (hane : a ≠ "")
    (hk : w.env.CLOUDFLARE_AUTH_KEY = some k) (hkne : k ≠ "") :
    (transcribeWithCloudflare w st audioPath options).events =
      [.fetchCall (cloudflareRequest a k b options)] ∧
    (cloudflareRequest a k b options).method = "POST" ∧
    (cloudflareRequest a k b options).url =
      "https://api.cloudflare.com/client/v4/accounts/" ++ a
        ++ "/ai/run/@cf/openai/whisper-large-v3-turbo" ∧
    (cloudflareRequest a k b options).authorization = "Bearer " ++ k ∧
    (cloudflareRequest a k b options).body.audio = base64Encode b ∧
    (cloudflareRequest a k b options).body.task =
      (if options.translate = some true then "translate" else "transcribe") ∧
    (cloudflareRequest a k b options).body.vad_filter = true ∧
    ((cloudflareRequest a k b options).body.language ≠ none ↔
      ∃ l, options.language = some l ∧ l ≠ "") := by
  refine ⟨?_, rfl, rfl, rfl, rfl, rfl, rfl, ?_⟩
  · unfold transcribeWithCloudflare
    simp only [hfile, ha, hk, Option.isNone_some, Option.getD_some, envTruthy]
    rw [if_neg (by simp), if_neg (by simp [hane, hkne])]
    split
    · rfl
    · split <;> rfl
  · show (match options.language with
      | some l => if l = "" then none else some l
      | none => none) ≠ none ↔ ∃ l, options.language = some l ∧ l ≠ ""
    match hl : options.language with
    | none => simp
    | some l =>
      by_cases h0 : l = "" <;> simp [h0]

/-- Witness for C7 (amended) at a concrete call with a non-empty language
and `translate := some true`. -/
theorem claim_C7_witness :
    (transcribeWithCloudflare (worldWith envCF) ⟨fsBoth, none⟩ "/a.wav"
        { language := some "it", translate := some true }).events =
      [.fetchCall (cloudflareRequest "acct" "key" [1, 2, 3]
          { language := some "it", translate := some true })] ∧
    (cloudflareRequest "acct" "key" [1, 2, 3]
        { language := some "it", translate := some true }).body.task = "translate" ∧
    ((cloudflareRequest "acct" "key" [1, 2, 3]
        { language := some "it", translate := some true }).body.language ≠ none ↔
      ∃ l, ({ language := some "it", translate := some true } :
        TranscribeOptions).language = some l ∧ l ≠ "") := by
  have h := claim_C7_remote_request_shape (worldWith envCF) ⟨fsBoth, none⟩ "/a.wav"
    { language := some "it", translate := some true } [1, 2, 3] "acct" "key"
    rfl rfl (by decide) rfl (by decide)
  exact ⟨h.1, h.2.2.2.2.2.1, h.2.2.2.2.2.2.2⟩

/-- C8: on a successful local-engine run, the adapter's output text equals
the returned segment texts concatenated in order with a single space
separator and then normalized; the engine is invoked with a parameter
object whose language/translate keys are present exactly when the caller
supplied them (`Option` models key presence: unset options stay `none`
rather than becoming placeholder values); `resultsToText` is exactly the
space-join of the segment texts; and concretely segments
`[{text:"Hello,"}, {text:"world!"}]` yield output text "Hello, world!". -/
theorem claim_C8_local_adapter_output (w : World) (st : St) (audioPath : String)
    (options : TranscribeOptions) (ab pcm : Bytes) (mp : String)
    (hfile : st.fs audioPath = some ab)
    (hmp : w.env.WHISPER_CPP_MODEL_PATH = some mp) (hmpne : mp ≠ "")
    (hmodel : (st.fs mp).isSome = true)
    (hconv : w.convert ab = some pcm) :
    (transcribeWithWhisper w st audioPath options).res =
      .ok { text := cleanTranscription (resultsToText (w.engine mp pcm
        { language := options.language, translate := options.translate })) } ∧
    .engineTranscribe mp { language := options.language, translate := options.translate } ∈
      (transcribeWithWhisper w st audioPath options).events ∧
    (∀ results : List Segment,
      resultsToText results = String.intercalate " " (results.map Segment.text)) ∧
    cleanTranscription (resultsToText [⟨"Hello,", 0, 1000⟩, ⟨"world!", 1000, 2000⟩]) =
      "Hello, world!" := by
  have hw := getWhisperInstance_ok hmp hmpne hmodel
  have haud : (audioToPcm w (getWhisperInstance w st).st audioPath).res = .ok pcm := by
    rw [audioToPcm_res_of_fs hw.2 audioPath]
    exact audioToPcm_ok hfile hconv
  obtain ⟨stx, ev, hmain⟩ : ∃ stx ev,
      transcribeWithWhisper w st audioPath options =
        ⟨.ok { text := cleanTranscription (resultsToText (w.engine mp pcm
            { language := options.language, translate := options.translate })) }, stx,
          ev ++ [.engineTranscribe mp
            { language := options.language, translate := options.translate }]⟩ := by
    unfold transcribeWithWhisper
    rw [if_neg (by rw [hfile]; simp)]
    dsimp only
    rw [hw.1]
    dsimp only
    rw [haud]
    exact ⟨_, _, rfl⟩
  refine ⟨?_, ?_, fun results => rfl, by decide⟩
  · rw [hmain]
  · rw [hmain]
    simp

/-- Witness for C8: the concrete engine oracle of the test world returns
the two segments of spec scenario 7 and the call produces exactly
`{text := "Hello, world!"}`. -/
theorem claim_C8_witness :
    (transcribeWithWhisper (worldWith envBoth) ⟨fsBoth, none⟩ "/a.wav" {}).res =
      .ok { text := "Hello, world!" } := by
  have h := (claim_C8_local_adapter_output (worldWith envBoth) ⟨fsBoth, none⟩
    "/a.wav" {} [1, 2, 3] [1, 2, 3] "/model.bin" rfl rfl (by decide) rfl rfl).1
  rw [h]
  rfl

/-- C10: for a remote reply with successful HTTP status whose body has the
success flag true but whose result text is empty (or whose result field is
absent), the adapter fails with a `ProviderError` carrying the first
reported error message or the generic fallback; and whenever the remote
path returns an output at all, the reply's result was present with
non-empty text — the adapter never builds an output from an empty remote
result. -/
theorem claim_C10_remote_empty_result (w : World) (st : St) (audioPath : String)
    (options : TranscribeOptions) (b : Bytes) (a k : String)
    (hfile : st.fs audioPath = some b)
    (ha : w.env.CLOUDFLARE_ACCOUNT_ID = some a) (hane : a ≠ "")
    (hk : w.env.CLOUDFLARE_AUTH_KEY = some k) (hkne : k ≠ "") :
    ((w.fetchOracle (cloudflareRequest a k b options)).ok = true →
      (w.fetchOracle (cloudflareRequest a k b options)).json.success = true →
      cfResultMissing (w.fetchOracle (cloudflareRequest a k b options)).json = true →
      (transcribeWithCloudflare w st audioPath options).res =
        .error (.provider ("Cloudflare transcription failed: "
          ++ firstCloudflareError (w.fetchOracle (cloudflareRequest a k b options)).json))) ∧
    (∀ out : TranscribeOutput,
      (transcribeWithCloudflare w st audioPath options).res = .ok out →
      ∃ r : CFResult,
        (w.fetchOracle (cloudflareRequest a k b options)).json.result = some r ∧
        r.text ≠ "" ∧ out.text = cleanTranscription r.text) := by
  have hred : transcribeWithCloudflare w st audioPath options =
      (let reply := w.fetchOracle (cloudflareRequest a k b options)
       if !reply.ok then
         ⟨.error (.provider ("Cloudflare API error: " ++ Nat.repr reply.status ++ " "
             ++ reply.statusText ++ " - " ++ reply.bodyText)), st,
           [.fetchCall (cloudflareRequest a k b options)]⟩
       else if !reply.json.success || cfResultMissing reply.json then
         ⟨.error (.provider ("Cloudflare transcription failed: "
             ++ firstCloudflareError reply.json)), st,
           [.fetchCall (cloudflareRequest a k b options)]⟩
       else
         ⟨.ok { text := cleanTranscription (((reply.json.result).getD ⟨""⟩).text) }, st,
           [.fetchCall (cloudflareRequest a k b options)]⟩ : Outcome TranscribeOutput) := by
    unfold transcribeWithCloudflare
    rw [if_neg (by rw [hfile]; simp),
      if_neg (by rw [ha, hk]; simp [envTruthy, hane, hkne])]
    rw [hfile, ha, hk]
    rfl
  constructor
  · intro hok hsucc hmiss
    rw [hred]
    dsimp only
    rw [if_neg (by simp [hok]), if_pos (by simp [hsucc, hmiss])]
  · intro out hout
    rw [hred] at hout
    dsimp only at hout
    split at hout
    · exact absurd hout (by simp)
    · split at hout
      · exact absurd hout (by simp)
      · next hcond =>
        simp only [Bool.or_eq_true, Bool.not_eq_true', not_or, Bool.not_eq_true] at hcond
        obtain ⟨-, hmiss⟩ := hcond
        unfold cfResultMissing at hmiss
        match hres : (w.fetchOracle (cloudflareRequest a k b options)).json.result with
        | none => rw [hres] at hmiss; simp at hmiss
        | some r =>
          rw [hres] at hmiss
          simp only [decide_eq_false_iff_not] at hmiss
          refine ⟨r, rfl, hmiss, ?_⟩
          simp only [Except.ok.injEq] at hout
          rw [← hout, hres]
          rfl

/-- Witness for C10: a concrete reply with `ok`, `success: true` but an
empty result text is rejected with the first reported error message
("Invalid audio format", spec scenario 9 shape). -/
theorem claim_C10_witness :
    (transcribeWithCloudflare
        ⟨envCF, 7, "r4nd", fun b => some b, fun _ _ _ => [], fun _ =>
          ⟨true, 200, "OK", "", ⟨true, some ⟨""⟩, some [⟨"Invalid audio format"⟩]⟩⟩⟩
        ⟨fsBoth, none⟩ "/a.wav" {}).res =
      .error (.provider ("Cloudflare transcription failed: "
        ++ "Invalid audio format")) := by
  exact (claim_C10_remote_empty_result
      ⟨envCF, 7, "r4nd", fun b => some b, fun _ _ _ => [], fun _ =>
        ⟨true, 200, "OK", "", ⟨true, some ⟨""⟩, some [⟨"Invalid audio format"⟩]⟩⟩⟩
      ⟨fsBoth, none⟩ "/a.wav" {} [1, 2, 3] "acct" "key"
      rfl rfl (by decide) rfl (by decide)).1 rfl rfl rfl

end SttProxy
